import Mathlib

/-!
Verification of the openapi-effect dispatch and classification engine.

The definitions below shallowly embed the response-dispatch core of the
repository: the JSON parsing boundary (`JSON.parse` as used by `parseJSON`
in `strict-client`), the boundary-error vocabulary of
`core/api-client/strict-types`, the generated per-operation dispatchers of
`generated/dispatch.ts`, the request executor `executeRequest`, the
default-dispatcher registry of `create-client`, and the HTTP-error
value-exposure of `createClientEffect`.
-/

namespace OpenapiEffect

/-- JSON values as produced by the JavaScript `JSON.parse`. Numbers keep
their raw numeral text, since no claim depends on numeric semantics. -/
inductive Json where
  | null : Json
  | bool (b : Bool) : Json
  | num (raw : String) : Json
  | str (s : String) : Json
  | arr (elems : List Json) : Json
  | obj (fields : List (String × Json)) : Json

/-- Whitespace characters permitted by the JSON grammar. -/
def isJsonWs (c : Char) : Bool :=
  c = ' ' || c = '\t' || c = '\n' || c = '\r'

/-- Drop leading JSON whitespace. -/
def skipWs : List Char → List Char
  | [] => []
  | c :: cs => if isJsonWs c then skipWs cs else c :: cs

/-- Single-character escape sequences of JSON strings. -/
def escChar (c : Char) : Option Char :=
  if c = '\"' then some '\"'
  else if c = '\\' then some '\\'
  else if c = '/' then some '/'
  else if c = 'b' then some '\x08'
  else if c = 'f' then some '\x0C'
  else if c = 'n' then some '\n'
  else if c = 'r' then some '\r'
  else if c = 't' then some '\t'
  else none

/-- Whether a character is a hexadecimal digit. -/
def isHexDigitChar (c : Char) : Bool :=
  c.isDigit || ('a' ≤ c && c ≤ 'f') || ('A' ≤ c && c ≤ 'F')

/-- Numeric value of a hexadecimal digit. -/
def hexVal (c : Char) : Nat :=
  if c.isDigit then c.toNat - '0'.toNat
  else if 'a' ≤ c ∧ c ≤ 'f' then c.toNat - 'a'.toNat + 10
  else if 'A' ≤ c ∧ c ≤ 'F' then c.toNat - 'A'.toNat + 10
  else 0

/-- Character denoted by a four-hex-digit unicode escape. -/
def unicodeChar (a b c d : Char) : Char :=
  Char.ofNat (((hexVal a * 16 + hexVal b) * 16 + hexVal c) * 16 + hexVal d)

/-- Parse the body of a JSON string literal, the opening quote already
consumed; returns the decoded string and the remaining input. -/
def parseStringBody : Nat → List Char → Option (String × List Char)
  | 0, _ => none
  | _, [] => none
  | fuel + 1, c :: cs =>
    if c = '\"' then some ("", cs)
    else if c = '\\' then
      match cs with
      | [] => none
      | e :: cs2 =>
        match escChar e with
        | some ec => (parseStringBody fuel cs2).map (fun p => (String.mk (ec :: p.1.toList), p.2))
        | none =>
          if e = 'u' then
            match cs2 with
            | a :: b :: c2 :: d :: cs3 =>
              if isHexDigitChar a && isHexDigitChar b && isHexDigitChar c2 && isHexDigitChar d then
                (parseStringBody fuel cs3).map
                  (fun p => (String.mk (unicodeChar a b c2 d :: p.1.toList), p.2))
              else none
            | _ => none
          else none
    else if c.toNat < 32 then none
    else (parseStringBody fuel cs).map (fun p => (String.mk (c :: p.1.toList), p.2))

/-- Split off the leading run of decimal digits. -/
def digitsSpan : List Char → List Char × List Char
  | [] => ([], [])
  | c :: cs =>
    if c.isDigit then
      let p := digitsSpan cs
      (c :: p.1, p.2)
    else ([], c :: cs)

/-- Parse the optional fraction part of a JSON number. -/
def parseFracPart : List Char → Option (List Char × List Char)
  | '.' :: r =>
    match digitsSpan r with
    | ([], _) => none
    | (fs, rr) => some ('.' :: fs, rr)
  | cs => some ([], cs)

/-- Parse the optional exponent part of a JSON number. -/
def parseExpPart : List Char → Option (List Char × List Char)
  | [] => some ([], [])
  | c :: r =>
    if c = 'e' || c = 'E' then
      let sp : List Char × List Char :=
        match r with
        | s :: rr => if s = '+' || s = '-' then ([s], rr) else ([], s :: rr)
        | [] => ([], [])
      match digitsSpan sp.2 with
      | ([], _) => none
      | (ds, rr) => some (c :: (sp.1 ++ ds), rr)
    else some ([], c :: r)

/-- Parse a JSON number (sign, integer part without leading zeros,
optional fraction and exponent), keeping its raw text. -/
def parseNumberChars (cs : List Char) : Option (Json × List Char) :=
  let sp : List Char × List Char :=
    match cs with
    | '-' :: r => (['-'], r)
    | _ => ([], cs)
  match digitsSpan sp.2 with
  | ([], _) => none
  | (ds, r1) =>
    if 1 < ds.length && ds.headD 'x' = '0' then none
    else
      match parseFracPart r1 with
      | none => none
      | some (fs, r2) =>
        match parseExpPart r2 with
        | none => none
        | some (es, r3) => some (.num (String.mk (sp.1 ++ ds ++ fs ++ es)), r3)

mutual

/-- Parse one JSON value; fuel bounds the recursion depth. -/
def parseValue : Nat → List Char → Option (Json × List Char)
  | 0, _ => none
  | fuel + 1, cs =>
    match skipWs cs with
    | [] => none
    | '\x7b' :: rest => parseObjectBody fuel rest
    | '[' :: rest => parseArrayBody fuel rest
    | '\"' :: rest => (parseStringBody (rest.length + 1) rest).map (fun p => (.str p.1, p.2))
    | 't' :: 'r' :: 'u' :: 'e' :: rest => some (.bool true, rest)
    | 'f' :: 'a' :: 'l' :: 's' :: 'e' :: rest => some (.bool false, rest)
    | 'n' :: 'u' :: 'l' :: 'l' :: rest => some (.null, rest)
    | cs2 => parseNumberChars cs2

/-- Parse an object body, the opening brace already consumed. -/
def parseObjectBody : Nat → List Char → Option (Json × List Char)
  | 0, _ => none
  | fuel + 1, cs =>
    match skipWs cs with
    | '\x7d' :: rest => some (.obj [], rest)
    | cs2 => (parseMembers fuel cs2).map (fun p => (.obj p.1, p.2))

/-- Parse one or more `key: value` members of an object. -/
def parseMembers : Nat → List Char → Option (List (String × Json) × List Char)
  | 0, _ => none
  | fuel + 1, cs =>
    match skipWs cs with
    | '\"' :: rest =>
      match parseStringBody (rest.length + 1) rest with
      | none => none
      | some (key, r1) =>
        match skipWs r1 with
        | ':' :: r2 =>
          match parseValue fuel r2 with
          | none => none
          | some (v, r3) =>
            match skipWs r3 with
            | ',' :: r4 => (parseMembers fuel r4).map (fun p => ((key, v) :: p.1, p.2))
            | '\x7d' :: r4 => some ([(key, v)], r4)
            | _ => none
        | _ => none
    | _ => none

/-- Parse an array body, the opening bracket already consumed. -/
def parseArrayBody : Nat → List Char → Option (Json × List Char)
  | 0, _ => none
  | fuel + 1, cs =>
    match skipWs cs with
    | ']' :: rest => some (.arr [], rest)
    | cs2 => (parseElements fuel cs2).map (fun p => (.arr p.1, p.2))

/-- Parse one or more comma-separated array elements. -/
def parseElements : Nat → List Char → Option (List Json × List Char)
  | 0, _ => none
  | fuel + 1, cs =>
    match parseValue fuel cs with
    | none => none
    | some (v, r1) =>
      match skipWs r1 with
      | ',' :: r2 => (parseElements fuel r2).map (fun p => (v :: p.1, p.2))
      | ']' :: r2 => some ([v], r2)
      | _ => none

end

/-- Model of the JavaScript `JSON.parse` used by `parseJSON` in
`strict-client`: `some` on syntactically valid JSON text, `none` where
`JSON.parse` throws a `SyntaxError`. -/
def parseJSONText (text : String) : Option Json :=
  let cs := text.toList
  match parseValue (3 * cs.length + 3) cs with
  | none => none
  | some (v, rest) => if (skipWs rest).isEmpty then some v else none

/-- Raw response consumed by a dispatcher (`core/axioms` `RawResponse`):
status, headers, fully-read text body. Headers are name/value pairs. -/
structure RawResponse where
  status : Nat
  headers : List (String × String)
  text : String

/-- ASCII-lowercased code point of a character, for case-insensitive
header-name comparison. -/
def lowerNat (c : Char) : Nat :=
  if 65 ≤ c.toNat && c.toNat ≤ 90 then c.toNat + 32 else c.toNat

/-- Case-insensitive character-list equality. -/
def eqListIgnoreCase : List Char → List Char → Bool
  | [], [] => true
  | a :: as, b :: bs => lowerNat a = lowerNat b && eqListIgnoreCase as bs
  | _, _ => false

/-- Model of the JavaScript `Headers.get`: case-insensitive lookup of the
first header with the given name. -/
def headersGet (headers : List (String × String)) (name : String) : Option String :=
  match headers with
  | [] => none
  | (k, v) :: rest =>
    if eqListIgnoreCase k.toList name.toList then some v else headersGet rest name

/-- Successful dispatch record `{status, contentType, body}`
(`ResponseVariant` of `strict-types`); `body` is `none` for bodiless
statuses (the TypeScript `undefined`). -/
structure SuccessRecord where
  status : Nat
  contentType : String
  body : Option Json

/-- Error channel of a dispatch (`ApiFailure` of `strict-types`): the
schema-declared `HttpError` variant plus the five boundary errors.
JavaScript `Error` payloads are modelled by their message strings. -/
inductive Failure where
  | transportError (error : String) : Failure
  | unexpectedStatus (status : Nat) (body : String) : Failure
  | unexpectedContentType (status : Nat) (expected : List String) (actual : Option String)
      (body : String) : Failure
  | parseError (status : Nat) (contentType : String) (error : String) (body : String) : Failure
  | decodeError (status : Nat) (contentType : String) (error : String) (body : String) : Failure
  | httpError (status : Nat) (contentType : String) (body : Option Json) : Failure

/-- Whether `needle` occurs as a contiguous substring at the head of `hay`. -/
def isSubAt : List Char → List Char → Bool
  | [], _ => true
  | _ :: _, [] => false
  | n :: ns, c :: cs => n = c && isSubAt ns cs

/-- Model of the JavaScript `String.prototype.includes`: substring test. -/
def containsSub (needle : List Char) : List Char → Bool
  | [] => needle.isEmpty
  | c :: cs => isSubAt needle (c :: cs) || containsSub needle cs

/-- The test `contentType?.includes("application/json")` of the generated
dispatch helpers: `false` when the header is absent (`undefined`). -/
def ctIncludesJson : Option String → Bool
  | none => false
  | some ct => containsSub "application/json".toList ct.toList

/-- Helper `unexpectedStatus` of `strict-client`. -/
def unexpectedStatus (status : Nat) (body : String) : Failure :=
  .unexpectedStatus status body

/-- Helper `unexpectedContentType` of `strict-client`. -/
def unexpectedContentType (status : Nat) (expected : List String) (actual : Option String)
    (body : String) : Failure :=
  .unexpectedContentType status expected actual body

/-- Helper `parseJSON` of `strict-client`: `Effect.try` around `JSON.parse`,
failing with a `ParseError` that carries the offending raw text. -/
def parseJSON (status : Nat) (contentType : String) (text : String) : Except Failure Json :=
  match parseJSONText text with
  | some v => .ok v
  | none => .error (.parseError status contentType "SyntaxError" text)

/-- Last-binding lookup in a JSON object, matching JavaScript object
semantics where a duplicated key keeps its last value. -/
def jsonLookup (fields : List (String × Json)) (name : String) : Option Json :=
  match fields with
  | [] => none
  | (k, v) :: rest =>
    match jsonLookup rest name with
    | some r => some r
    | none => if k = name then some v else none

/-- Modelled from the spec: the generated `decoders.ts` module is not under
`src/`. Per §4.3 and §8, a decoder validates the parsed shape; a `Pet` is
an object with string `id`, string `name` and an optional string `tag`. -/
def isPet (v : Json) : Bool :=
  match v with
  | .obj fields =>
    (match jsonLookup fields "id" with
      | some (.str _) => true
      | _ => false)
    && (match jsonLookup fields "name" with
      | some (.str _) => true
      | _ => false)
    && (match jsonLookup fields "tag" with
      | some (.str _) => true
      | none => true
      | _ => false)
  | _ => false

/-- Modelled from the spec: a pet list is a JSON array of `Pet`s. -/
def isPetList (v : Json) : Bool :=
  match v with
  | .arr elems => elems.all isPet
  | _ => false

/-- Modelled from the spec: an `Error` body is an object with a numeric
`code` and a string `message` (§8 end-to-end scenario). -/
def isErrorBody (v : Json) : Bool :=
  match v with
  | .obj fields =>
    (match jsonLookup fields "code" with
      | some (.num _) => true
      | _ => false)
    && (match jsonLookup fields "message" with
      | some (.str _) => true
      | _ => false)
  | _ => false

/-- Modelled from the spec: shape of every generated decoder — it checks
the parsed JSON against the declared shape and either returns it or a
`DecodeError` carrying status, content type and the raw body (§4.3, §8
round-trip decode). -/
def mkJsonDecoder (check : Json → Bool) (status : Nat) (contentType : String) (body : String)
    (parsed : Json) : Except Failure Json :=
  if check parsed then .ok parsed
  else .error (.decodeError status contentType "schema mismatch" body)

/-- Modelled from the spec: decoder for `listPets` 200 (array of `Pet`). -/
def decodelistPets_200 := mkJsonDecoder isPetList

/-- Modelled from the spec: decoder for `listPets` 500 (`Error`). -/
def decodelistPets_500 := mkJsonDecoder isErrorBody

/-- Modelled from the spec: decoder for `createPet` 201 (`Pet`). -/
def decodecreatePet_201 := mkJsonDecoder isPet

/-- Modelled from the spec: decoder for `createPet` 400 (`Error`). -/
def decodecreatePet_400 := mkJsonDecoder isErrorBody

/-- Modelled from the spec: decoder for `createPet` 500 (`Error`). -/
def decodecreatePet_500 := mkJsonDecoder isErrorBody

/-- Modelled from the spec: decoder for `getPet` 200 (`Pet`). -/
def decodegetPet_200 := mkJsonDecoder isPet

/-- Modelled from the spec: decoder for `getPet` 404 (`Error`). -/
def decodegetPet_404 := mkJsonDecoder isErrorBody

/-- Modelled from the spec: decoder for `getPet` 500 (`Error`). -/
def decodegetPet_500 := mkJsonDecoder isErrorBody

/-- Modelled from the spec: decoder for `deletePet` 404 (`Error`). -/
def decodedeletePet_404 := mkJsonDecoder isErrorBody

/-- Modelled from the spec: decoder for `deletePet` 500 (`Error`). -/
def decodedeletePet_500 := mkJsonDecoder isErrorBody

/-- Helper `processJsonContentSuccess` of `generated/dispatch.ts`: if the
content type includes `application/json`, parse, decode and build the
success record; otherwise fail with `UnexpectedContentType`. -/
def processJsonContentSuccess (status : Nat) (contentType : Option String) (text : String)
    (decoder : Nat → String → String → Json → Except Failure Json) :
    Except Failure SuccessRecord :=
  if ctIncludesJson contentType then
    match parseJSON status "application/json" text with
    | .error e => .error e
    | .ok parsed =>
      match decoder status "application/json" text parsed with
      | .error e => .error e
      | .ok decoded => .ok ⟨status, "application/json", some decoded⟩
  else .error (unexpectedContentType status ["application/json"] contentType text)

/-- Helper `processJsonContentError` of `generated/dispatch.ts`: like the
success variant, but the decoded record is failed with the `HttpError`
discriminator, so it never reaches the success channel. -/
def processJsonContentError (status : Nat) (contentType : Option String) (text : String)
    (decoder : Nat → String → String → Json → Except Failure Json) :
    Except Failure SuccessRecord :=
  if ctIncludesJson contentType then
    match parseJSON status "application/json" text with
    | .error e => .error e
    | .ok parsed =>
      match decoder status "application/json" text parsed with
      | .error e => .error e
      | .ok decoded => .error (.httpError status "application/json" (some decoded))
  else .error (unexpectedContentType status ["application/json"] contentType text)

/-- Helper `createDispatcher` of `strict-client`: reads the content-type
header (absent becomes `undefined`) and delegates to the classifier. -/
def createDispatcher (classify : Nat → Option String → String → Except Failure SuccessRecord) :
    RawResponse → Except Failure SuccessRecord :=
  fun response => classify response.status (headersGet response.headers "content-type") response.text

/-- Generated dispatcher for `listPets`: statuses 200 (success) and 500
(error); any other status is `UnexpectedStatus`. -/
def dispatcherlistPets : RawResponse → Except Failure SuccessRecord :=
  createDispatcher (fun status contentType text =>
    if status = 200 then processJsonContentSuccess 200 contentType text decodelistPets_200
    else if status = 500 then processJsonContentError 500 contentType text decodelistPets_500
    else .error (unexpectedStatus status text))

/-- Generated dispatcher for `createPet`: statuses 201, 400, 500. -/
def dispatchercreatePet : RawResponse → Except Failure SuccessRecord :=
  createDispatcher (fun status contentType text =>
    if status = 201 then processJsonContentSuccess 201 contentType text decodecreatePet_201
    else if status = 400 then processJsonContentError 400 contentType text decodecreatePet_400
    else if status = 500 then processJsonContentError 500 contentType text decodecreatePet_500
    else .error (unexpectedStatus status text))

/-- Generated dispatcher for `getPet`: statuses 200, 404, 500. -/
def dispatchergetPet : RawResponse → Except Failure SuccessRecord :=
  createDispatcher (fun status contentType text =>
    if status = 200 then processJsonContentSuccess 200 contentType text decodegetPet_200
    else if status = 404 then processJsonContentError 404 contentType text decodegetPet_404
    else if status = 500 then processJsonContentError 500 contentType text decodegetPet_500
    else .error (unexpectedStatus status text))

/-- Generated dispatcher for `deletePet`: status 204 succeeds with no body
and content type `"none"` without touching the raw text; 404 and 500 are
JSON error statuses. -/
def dispatcherdeletePet : RawResponse → Except Failure SuccessRecord :=
  createDispatcher (fun status contentType text =>
    if status = 204 then .ok ⟨204, "none", none⟩
    else if status = 404 then processJsonContentError 404 contentType text decodedeletePet_404
    else if status = 500 then processJsonContentError 500 contentType text decodedeletePet_500
    else .error (unexpectedStatus status text))

/-- The four generated operations of `generated/dispatch.ts`. -/
inductive Op where
  | listPets : Op
  | createPet : Op
  | getPet : Op
  | deletePet : Op

/-- Dispatcher of each operation. -/
def dispatcherOf : Op → RawResponse → Except Failure SuccessRecord
  | .listPets => dispatcherlistPets
  | .createPet => dispatchercreatePet
  | .getPet => dispatchergetPet
  | .deletePet => dispatcherdeletePet

/-- Statuses declared in each operation's schema, read off the generated
dispatch clauses. -/
def declaredStatuses : Op → List Nat
  | .listPets => [200, 500]
  | .createPet => [201, 400, 500]
  | .getPet => [200, 404, 500]
  | .deletePet => [204, 404, 500]

/-- Content types declared for a status: `application/json` everywhere
except the bodiless `deletePet` 204, whose sentinel is `"none"`. -/
def declaredContentTypes : Op → Nat → List String
  | .deletePet, 204 => ["none"]
  | _, _ => ["application/json"]

/-- Shape check applied by the generated decoder of each (operation,
status) pair: the decoder registered for it is `mkJsonDecoder` of this
check. -/
def decoderCheck : Op → Nat → Json → Bool
  | .listPets, 200 => isPetList
  | .createPet, 201 => isPet
  | .getPet, 200 => isPet
  | _, _ => isErrorBody

/-- The type-level `Is2xx` of `strict-types`, realized on numbers: the
template-literal test that the decimal representation starts with `2`. -/
def Is2xx (s : Nat) : Bool :=
  "2".toList.isPrefixOf (toString s).toList

/-- Follows the spec words of §4.1 for comparison: `isSuccessStatus` is
true iff `200 ≤ status ≤ 299`. -/
def isSuccessStatusSpec (s : Nat) : Bool :=
  decide (200 ≤ s ∧ s ≤ 299)

/-- Follows the spec words of §4.4 step 3 for comparison: the response's
content type is the header value truncated at the first semicolon. -/
def headerMainPart (v : String) : String :=
  String.mk (v.toList.takeWhile (fun c => c ≠ ';'))

/-- Request executor `executeRequest` of `strict-client`, instrumented with
the list of raw responses the dispatcher is invoked on. The transport stage
(the `client.execute` call together with `response.text` extraction) is a
single fallible step whose failure is mapped to `TransportError`; on its
success the dispatcher classifies the extracted raw response. -/
def executeRequestTrace (transport : Except String RawResponse)
    (dispatcher : RawResponse → Except Failure SuccessRecord) :
    Except Failure SuccessRecord × List RawResponse :=
  match transport with
  | .error e => (.error (.transportError e), [])
  | .ok raw => (dispatcher raw, [raw])

/-- Outcome of `executeRequest`: the first component of the trace. -/
def executeRequest (transport : Except String RawResponse)
    (dispatcher : RawResponse → Except Failure SuccessRecord) :
    Except Failure SuccessRecord :=
  (executeRequestTrace transport dispatcher).1

/-- Registration entrypoint `registerDefaultDispatchers` of
`create-client`: overwrites the module-level registry. -/
def registerDefaultDispatchers {D : Type} (dispatchers : D) (_registry : Option D) : Option D :=
  some dispatchers

/-- Resolver `resolveDefaultDispatchers` of `create-client`: fails with the
configuration error when no registry has been registered. The module-level
mutable registry is passed explicitly; a thrown `Error` is the `.error`
branch carrying its message. -/
def resolveDefaultDispatchers {D : Type} (registry : Option D) : Except String D :=
  match registry with
  | none => .error "Default dispatchers are not registered. Import generated dispatchers module."
  | some d => .ok d

/-- Dispatcher-map resolution step of `createClient`
(`dispatchers ?? resolveDefaultDispatchers()`): an explicit map wins,
otherwise the registry is consulted and its absence throws. -/
def createClientDispatchers {D : Type} (registry : Option D) (dispatchers : Option D) :
    Except String D :=
  match dispatchers with
  | some d => .ok d
  | none => resolveDefaultDispatchers registry

/-- Runtime check `isHttpErrorValue` of `create-client`: the `_tag`
discriminator equals `"HttpError"`. -/
def isHttpErrorValue : Failure → Bool
  | .httpError _ _ _ => true
  | _ => false

/-- Whether a failure is one of the five boundary errors. -/
def isBoundaryErrorValue : Failure → Bool
  | .transportError _ => true
  | .unexpectedStatus _ _ => true
  | .unexpectedContentType _ _ _ _ => true
  | .parseError _ _ _ _ => true
  | .decodeError _ _ _ _ => true
  | .httpError _ _ _ => false

/-- Combinator `exposeHttpErrorsAsValues` of `create-client`:
`Effect.catchIf isHttpErrorValue Effect.succeed` — errors tagged
`HttpError` become success values, every other error stays on the error
channel. -/
def exposeHttpErrorsAsValues {A : Type} (request : Except Failure A) :
    Except Failure (A ⊕ Failure) :=
  match request with
  | .ok a => .ok (.inl a)
  | .error e => if isHttpErrorValue e then .ok (.inr e) else .error e

/-- Modelled from the spec: `createUniversalDispatcher` is exported from
`strict-client` but its definition is not under `src/`. Per §9 and the
`createClientEffect` documentation it classifies any response by status
range — 2xx to a success record, other statuses to `HttpError` — parsing
JSON automatically for `application/json` content types. -/
def universalDispatcher (raw : RawResponse) : Except Failure SuccessRecord :=
  let ct := headersGet raw.headers "content-type"
  if ctIncludesJson ct then
    match parseJSONText raw.text with
    | none => .error (.parseError raw.status "application/json" "SyntaxError" raw.text)
    | some v =>
      if isSuccessStatusSpec raw.status then .ok ⟨raw.status, "application/json", some v⟩
      else .error (.httpError raw.status "application/json" (some v))
  else
    if isSuccessStatusSpec raw.status then .ok ⟨raw.status, "none", none⟩
    else .error (.httpError raw.status "none" none)

/-- Request pipeline of a `createClientEffect` method handler: the
universal dispatcher composed with `exposeHttpErrorsAsValues`. -/
def createClientEffectRequest (transport : Except String RawResponse) :
    Except Failure (SuccessRecord ⊕ Failure) :=
  exposeHttpErrorsAsValues (executeRequest transport universalDispatcher)

lemma ctIncludesJson_appJson : ctIncludesJson (some "application/json") = true := by decide

lemma ctIncludesJson_textHtml : ctIncludesJson (some "text/html") = false := by decide

/-- C3: the deletePet dispatcher maps every raw response with status 204 to
the success record with status 204, content type "none" and no body,
whatever the headers (content-type included or absent) and whatever the raw
body text. -/
theorem claim3_deletePet_204 (headers : List (String × String)) (text : String) :
    dispatcherdeletePet ⟨204, headers, text⟩ =
      .ok ⟨204, "none", none⟩ :=
  rfl

/-- C2: for every operation, a raw response whose status is not among the
operation's declared statuses dispatches to UnexpectedStatus carrying that
status and the raw body text, regardless of headers and body. -/
theorem claim2_unexpected_status (op : Op) (raw : RawResponse)
    (h : raw.status ∉ declaredStatuses op) :
    dispatcherOf op raw = .error (.unexpectedStatus raw.status raw.text) := by
  obtain ⟨s, headers, text⟩ := raw
  cases op <;>
    simp only [declaredStatuses, List.mem_cons, List.mem_singleton, List.not_mem_nil,
      not_or, or_false] at h
  case listPets =>
    simp [dispatcherOf, dispatcherlistPets, createDispatcher, unexpectedStatus, h.1, h.2]
  case createPet =>
    simp [dispatcherOf, dispatchercreatePet, createDispatcher, unexpectedStatus,
      h.1, h.2.1, h.2.2]
  case getPet =>
    simp [dispatcherOf, dispatchergetPet, createDispatcher, unexpectedStatus,
      h.1, h.2.1, h.2.2]
  case deletePet =>
    simp [dispatcherOf, dispatcherdeletePet, createDispatcher, unexpectedStatus,
      h.1, h.2.1, h.2.2]

/-- Witness for C2: dispatching status 418 (undeclared for getPet) yields
UnexpectedStatus 418 with the raw text. -/
theorem claim2_witness :
    dispatchergetPet ⟨418, [("content-type", "application/json")], "teapot"⟩ =
      .error (.unexpectedStatus 418 "teapot") := by
  have h : (418 : Nat) ∉ declaredStatuses .getPet := by decide
  exact claim2_unexpected_status .getPet ⟨418, [("content-type", "application/json")], "teapot"⟩ h

/-- C8: in the request executor, a transport-stage failure is converted to
TransportError and the dispatcher is invoked on no raw response at all,
while a transport success invokes the dispatcher exactly once on the
extracted raw response and returns its outcome. -/
theorem claim8_executor (transport : Except String RawResponse)
    (dispatcher : RawResponse → Except Failure SuccessRecord) :
    (∀ e, transport = .error e →
      executeRequestTrace transport dispatcher = (.error (.transportError e), []))
    ∧ (∀ raw, transport = .ok raw →
      executeRequestTrace transport dispatcher = (dispatcher raw, [raw])) := by
  constructor
  · intro e he
    subst he
    rfl
  · intro raw hr
    subst hr
    rfl

/-- Witness for C8: a failing transport yields TransportError with an empty
invocation trace, and a successful transport invokes the dispatcher once. -/
theorem claim8_witness :
    executeRequestTrace (.error "boom") dispatchergetPet =
      (.error (.transportError "boom"), [])
    ∧ executeRequestTrace (.ok ⟨418, [], "t"⟩) dispatchergetPet =
      (dispatchergetPet ⟨418, [], "t"⟩, [⟨418, [], "t"⟩]) :=
  ⟨(claim8_executor (.error "boom") dispatchergetPet).1 "boom" rfl,
    (claim8_executor (.ok ⟨418, [], "t"⟩) dispatchergetPet).2 ⟨418, [], "t"⟩ rfl⟩

/-- C9: resolving the dispatcher map in createClient with no explicit map
and no registered default registry throws the configuration error, never
producing a dispatcher map. -/
theorem claim9_no_registry_throws (D : Type) :
    createClientDispatchers (none : Option D) none =
      .error "Default dispatchers are not registered. Import generated dispatchers module." :=
  rfl

lemma processJsonContentSuccess_full (status : Nat) (text : String) (check : Json → Bool) :
    (∀ e, processJsonContentSuccess status (some "application/json") text (mkJsonDecoder check)
        ≠ .error (.transportError e))
    ∧ (∀ s b, processJsonContentSuccess status (some "application/json") text (mkJsonDecoder check)
        ≠ .error (.unexpectedStatus s b))
    ∧ (∀ s exp act b,
        processJsonContentSuccess status (some "application/json") text (mkJsonDecoder check)
          ≠ .error (.unexpectedContentType s exp act b))
    ∧ (parseJSONText text = none →
        processJsonContentSuccess status (some "application/json") text (mkJsonDecoder check)
          = .error (.parseError status "application/json" "SyntaxError" text))
    ∧ (∀ parsed, parseJSONText text = some parsed →
        (check parsed = false →
          processJsonContentSuccess status (some "application/json") text (mkJsonDecoder check)
            = .error (.decodeError status "application/json" "schema mismatch" text))
        ∧ (check parsed = true →
          processJsonContentSuccess status (some "application/json") text (mkJsonDecoder check)
            = .ok ⟨status, "application/json", some parsed⟩)) := by
  simp only [processJsonContentSuccess, parseJSON, ctIncludesJson_appJson, if_true]
  cases hp : parseJSONText text with
  | none => simp
  | some parsed =>
    cases hc : check parsed with
    | false => simp [mkJsonDecoder, hc]
    | true => simp [mkJsonDecoder, hc]

lemma processJsonContentError_full (status : Nat) (text : String) (check : Json → Bool) :
    (∀ e, processJsonContentError status (some "application/json") text (mkJsonDecoder check)
        ≠ .error (.transportError e))
    ∧ (∀ s b, processJsonContentError status (some "application/json") text (mkJsonDecoder check)
        ≠ .error (.unexpectedStatus s b))
    ∧ (∀ s exp act b,
        processJsonContentError status (some "application/json") text (mkJsonDecoder check)
          ≠ .error (.unexpectedContentType s exp act b))
    ∧ (parseJSONText text = none →
        processJsonContentError status (some "application/json") text (mkJsonDecoder check)
          = .error (.parseError status "application/json" "SyntaxError" text))
    ∧ (∀ parsed, parseJSONText text = some parsed →
        (check parsed = false →
          processJsonContentError status (some "application/json") text (mkJsonDecoder check)
            = .error (.decodeError status "application/json" "schema mismatch" text))
        ∧ (check parsed = true →
          processJsonContentError status (some "application/json") text (mkJsonDecoder check)
            = .error (.httpError status "application/json" (some parsed)))) := by
  simp only [processJsonContentError, parseJSON, ctIncludesJson_appJson, if_true]
  cases hp : parseJSONText text with
  | none => simp
  | some parsed =>
    cases hc : check parsed with
    | false => simp [mkJsonDecoder, hc]
    | true => simp [mkJsonDecoder, hc]

/-- C1 (amended): for every operation and declared status, with the
response content type equal to a declared content type, dispatch never
yields TransportError, UnexpectedStatus, or UnexpectedContentType; a
bodiless declared status yields the bodiless success record for every body
text; a declared-JSON status yields ParseError when the body fails to
parse, DecodeError when it parses but the decoder rejects it, and a
Success (if the status is 2xx) or an HttpError-tagged schema error
(otherwise) carrying the decoded body when it parses and decodes. -/
theorem claim1_amended (op : Op) (raw : RawResponse) (ct : String)
    (hs : raw.status ∈ declaredStatuses op)
    (hh : headersGet raw.headers "content-type" = some ct)
    (hct : ct ∈ declaredContentTypes op raw.status) :
    ((∀ e, dispatcherOf op raw ≠ .error (.transportError e))
      ∧ (∀ s b, dispatcherOf op raw ≠ .error (.unexpectedStatus s b))
      ∧ (∀ s exp act b, dispatcherOf op raw ≠ .error (.unexpectedContentType s exp act b)))
    ∧ (declaredContentTypes op raw.status = ["none"] →
        dispatcherOf op raw = .ok ⟨raw.status, "none", none⟩)
    ∧ (declaredContentTypes op raw.status = ["application/json"] →
        (parseJSONText raw.text = none →
          dispatcherOf op raw
            = .error (.parseError raw.status "application/json" "SyntaxError" raw.text))
        ∧ (∀ parsed, parseJSONText raw.text = some parsed →
            (decoderCheck op raw.status parsed = false →
              dispatcherOf op raw
                = .error (.decodeError raw.status "application/json" "schema mismatch" raw.text))
            ∧ (decoderCheck op raw.status parsed = true →
                (Is2xx raw.status = true →
                  dispatcherOf op raw = .ok ⟨raw.status, "application/json", some parsed⟩)
                ∧ (Is2xx raw.status = false →
                  dispatcherOf op raw
                    = .error (.httpError raw.status "application/json" (some parsed)))))) := by
  obtain ⟨s, headers, text⟩ := raw
  simp only at hh
  cases op <;>
    simp only [declaredStatuses, List.mem_cons, List.mem_singleton, List.not_mem_nil,
      or_false] at hs
  case listPets =>
    rcases hs with rfl | rfl <;>
      rw [show ∀ x, declaredContentTypes Op.listPets x = ["application/json"] from
        fun _ => rfl, List.mem_singleton] at hct <;> subst hct
    · have harm : dispatcherOf Op.listPets ⟨200, headers, text⟩
          = processJsonContentSuccess 200 (headersGet headers "content-type") text
              decodelistPets_200 := rfl
      rw [harm, hh]
      obtain ⟨hT, hU, hC, hparse, hdec⟩ := processJsonContentSuccess_full 200 text isPetList
      refine ⟨⟨hT, hU, hC⟩,
        fun hnone => absurd hnone
          ((by decide : declaredContentTypes Op.listPets 200 ≠ ["none"])),
        fun _ => ⟨hparse, fun parsed hp => ?_⟩⟩
      obtain ⟨hbad, hgood⟩ := hdec parsed hp
      exact ⟨hbad, fun hc =>
        ⟨fun _ => hgood hc, fun h2 => absurd h2 ((by decide : Is2xx 200 ≠ false))⟩⟩
    · have harm : dispatcherOf Op.listPets ⟨500, headers, text⟩
          = processJsonContentError 500 (headersGet headers "content-type") text
              decodelistPets_500 := rfl
      rw [harm, hh]
      obtain ⟨hT, hU, hC, hparse, hdec⟩ := processJsonContentError_full 500 text isErrorBody
      refine ⟨⟨hT, hU, hC⟩,
        fun hnone => absurd hnone
          ((by decide : declaredContentTypes Op.listPets 500 ≠ ["none"])),
        fun _ => ⟨hparse, fun parsed hp => ?_⟩⟩
      obtain ⟨hbad, hgood⟩ := hdec parsed hp
      exact ⟨hbad, fun hc =>
        ⟨fun h2 => absurd h2 ((by decide : Is2xx 500 ≠ true)), fun _ => hgood hc⟩⟩
  case createPet =>
    rcases hs with rfl | rfl | rfl <;>
      rw [show ∀ x, declaredContentTypes Op.createPet x = ["application/json"] from
        fun _ => rfl, List.mem_singleton] at hct <;> subst hct
    · have harm : dispatcherOf Op.createPet ⟨201, headers, text⟩
          = processJsonContentSuccess 201 (headersGet headers "content-type") text
              decodecreatePet_201 := rfl
      rw [harm, hh]
      obtain ⟨hT, hU, hC, hparse, hdec⟩ := processJsonContentSuccess_full 201 text isPet
      refine ⟨⟨hT, hU, hC⟩,
        fun hnone => absurd hnone
          ((by decide : declaredContentTypes Op.createPet 201 ≠ ["none"])),
        fun _ => ⟨hparse, fun parsed hp => ?_⟩⟩
      obtain ⟨hbad, hgood⟩ := hdec parsed hp
      exact ⟨hbad, fun hc =>
        ⟨fun _ => hgood hc, fun h2 => absurd h2 ((by decide : Is2xx 201 ≠ false))⟩⟩
    · have harm : dispatcherOf Op.createPet ⟨400, headers, text⟩
          = processJsonContentError 400 (headersGet headers "content-type") text
              decodecreatePet_400 := rfl
      rw [harm, hh]
      obtain ⟨hT, hU, hC, hparse, hdec⟩ := processJsonContentError_full 400 text isErrorBody
      refine ⟨⟨hT, hU, hC⟩,
        fun hnone => absurd hnone
          ((by decide : declaredContentTypes Op.createPet 400 ≠ ["none"])),
        fun _ => ⟨hparse, fun parsed hp => ?_⟩⟩
      obtain ⟨hbad, hgood⟩ := hdec parsed hp
      exact ⟨hbad, fun hc =>
        ⟨fun h2 => absurd h2 ((by decide : Is2xx 400 ≠ true)), fun _ => hgood hc⟩⟩
    · have harm : dispatcherOf Op.createPet ⟨500, headers, text⟩
          = processJsonContentError 500 (headersGet headers "content-type") text
              decodecreatePet_500 := rfl
      rw [harm, hh]
      obtain ⟨hT, hU, hC, hparse, hdec⟩ := processJsonContentError_full 500 text isErrorBody
      refine ⟨⟨hT, hU, hC⟩,
        fun hnone => absurd hnone
          ((by decide : declaredContentTypes Op.createPet 500 ≠ ["none"])),
        fun _ => ⟨hparse, fun parsed hp => ?_⟩⟩
      obtain ⟨hbad, hgood⟩ := hdec parsed hp
      exact ⟨hbad, fun hc =>
        ⟨fun h2 => absurd h2 ((by decide : Is2xx 500 ≠ true)), fun _ => hgood hc⟩⟩
  case getPet =>
    rcases hs with rfl | rfl | rfl <;>
      rw [show ∀ x, declaredContentTypes Op.getPet x = ["application/json"] from
        fun _ => rfl, List.mem_singleton] at hct <;> subst hct
    · have harm : dispatcherOf Op.getPet ⟨200, headers, text⟩
          = processJsonContentSuccess 200 (headersGet headers "content-type") text
              decodegetPet_200 := rfl
      rw [harm, hh]
      obtain ⟨hT, hU, hC, hparse, hdec⟩ := processJsonContentSuccess_full 200 text isPet
      refine ⟨⟨hT, hU, hC⟩,
        fun hnone => absurd hnone
          ((by decide : declaredContentTypes Op.getPet 200 ≠ ["none"])),
        fun _ => ⟨hparse, fun parsed hp => ?_⟩⟩
      obtain ⟨hbad, hgood⟩ := hdec parsed hp
      exact ⟨hbad, fun hc =>
        ⟨fun _ => hgood hc, fun h2 => absurd h2 ((by decide : Is2xx 200 ≠ false))⟩⟩
    · have harm : dispatcherOf Op.getPet ⟨404, headers, text⟩
          = processJsonContentError 404 (headersGet headers "content-type") text
              decodegetPet_404 := rfl
      rw [harm, hh]
      obtain ⟨hT, hU, hC, hparse, hdec⟩ := processJsonContentError_full 404 text isErrorBody
      refine ⟨⟨hT, hU, hC⟩,
        fun hnone => absurd hnone
          ((by decide : declaredContentTypes Op.getPet 404 ≠ ["none"])),
        fun _ => ⟨hparse, fun parsed hp => ?_⟩⟩
      obtain ⟨hbad, hgood⟩ := hdec parsed hp
      exact ⟨hbad, fun hc =>
        ⟨fun h2 => absurd h2 ((by decide : Is2xx 404 ≠ true)), fun _ => hgood hc⟩⟩
    · have harm : dispatcherOf Op.getPet ⟨500, headers, text⟩
          = processJsonContentError 500 (headersGet headers "content-type") text
              decodegetPet_500 := rfl
      rw [harm, hh]
      obtain ⟨hT, hU, hC, hparse, hdec⟩ := processJsonContentError_full 500 text isErrorBody
      refine ⟨⟨hT, hU, hC⟩,
        fun hnone => absurd hnone
          ((by decide : declaredContentTypes Op.getPet 500 ≠ ["none"])),
        fun _ => ⟨hparse, fun parsed hp => ?_⟩⟩
      obtain ⟨hbad, hgood⟩ := hdec parsed hp
      exact ⟨hbad, fun hc =>
        ⟨fun h2 => absurd h2 ((by decide : Is2xx 500 ≠ true)), fun _ => hgood hc⟩⟩
  case deletePet =>
    rcases hs with rfl | rfl | rfl
    · have hd : dispatcherOf Op.deletePet ⟨204, headers, text⟩ = .ok ⟨204, "none", none⟩ := rfl
      rw [hd]
      refine ⟨⟨?_, ?_, ?_⟩, fun _ => rfl,
        fun hjson => absurd hjson
          ((by decide : declaredContentTypes Op.deletePet 204 ≠ ["application/json"]))⟩
      · intro e h
        exact Except.noConfusion h
      · intro s b h
        exact Except.noConfusion h
      · intro s exp act b h
        exact Except.noConfusion h
    · rw [show declaredContentTypes Op.deletePet 404 = ["application/json"] from rfl,
        List.mem_singleton] at hct
      subst hct
      have harm : dispatcherOf Op.deletePet ⟨404, headers, text⟩
          = processJsonContentError 404 (headersGet headers "content-type") text
              decodedeletePet_404 := rfl
      rw [harm, hh]
      obtain ⟨hT, hU, hC, hparse, hdec⟩ := processJsonContentError_full 404 text isErrorBody
      refine ⟨⟨hT, hU, hC⟩,
        fun hnone => absurd hnone
          ((by decide : declaredContentTypes Op.deletePet 404 ≠ ["none"])),
        fun _ => ⟨hparse, fun parsed hp => ?_⟩⟩
      obtain ⟨hbad, hgood⟩ := hdec parsed hp
      exact ⟨hbad, fun hc =>
        ⟨fun h2 => absurd h2 ((by decide : Is2xx 404 ≠ true)), fun _ => hgood hc⟩⟩
    · rw [show declaredContentTypes Op.deletePet 500 = ["application/json"] from rfl,
        List.mem_singleton] at hct
      subst hct
      have harm : dispatcherOf Op.deletePet ⟨500, headers, text⟩
          = processJsonContentError 500 (headersGet headers "content-type") text
              decodedeletePet_500 := rfl
      rw [harm, hh]
      obtain ⟨hT, hU, hC, hparse, hdec⟩ := processJsonContentError_full 500 text isErrorBody
      refine ⟨⟨hT, hU, hC⟩,
        fun hnone => absurd hnone
          ((by decide : declaredContentTypes Op.deletePet 500 ≠ ["none"])),
        fun _ => ⟨hparse, fun parsed hp => ?_⟩⟩
      obtain ⟨hbad, hgood⟩ := hdec parsed hp
      exact ⟨hbad, fun hc =>
        ⟨fun h2 => absurd h2 ((by decide : Is2xx 500 ≠ true)), fun _ => hgood hc⟩⟩

/-- C1 (counterexample): with the declared status 200 and the declared
content type application/json, a body that is not valid JSON dispatches to
a ParseError — a BoundaryError — so the claim's "for every body text"
universal fails. -/
theorem claim1_counterexample :
    dispatchergetPet ⟨200, [("content-type", "application/json")], "\x7bnot valid"⟩ =
      .error (.parseError 200 "application/json" "SyntaxError" "\x7bnot valid") :=
  rfl

/-- Witness for C1 (amended): a declared non-2xx status with a parseable,
decodable declared-JSON body dispatches exactly to the HttpError-tagged
schema error carrying the decoded body. -/
theorem claim1_witness :
    dispatcherOf Op.getPet
        ⟨404, [("content-type", "application/json")],
          "\x7b\"code\":404,\"message\":\"not found\"\x7d"⟩
      = .error (.httpError 404 "application/json"
          (some (.obj [("code", .num "404"), ("message", .str "not found")]))) :=
  (((((claim1_amended Op.getPet
      ⟨404, [("content-type", "application/json")],
        "\x7b\"code\":404,\"message\":\"not found\"\x7d"⟩
      "application/json" (by decide) rfl (by decide)).2.2 rfl).2
    (.obj [("code", .num "404"), ("message", .str "not found")]) rfl).2 rfl).2) rfl

/-- C5: a declared status whose declared content types are exactly
[application/json], dispatched with a text/html content-type header, yields
UnexpectedContentType with that status, expected [application/json], actual
text/html, and the raw body attached. -/
theorem claim5_content_type_mismatch (op : Op) (s : Nat)
    (hs : s ∈ declaredStatuses op)
    (hct : declaredContentTypes op s = ["application/json"])
    (headers : List (String × String)) (text : String)
    (hh : headersGet headers "content-type" = some "text/html") :
    dispatcherOf op ⟨s, headers, text⟩ =
      .error (.unexpectedContentType s ["application/json"] (some "text/html") text) := by
  cases op <;>
    simp only [declaredStatuses, List.mem_cons, List.mem_singleton, List.not_mem_nil,
      or_false] at hs
  case listPets =>
    rcases hs with rfl | rfl
    · have harm : dispatcherOf Op.listPets ⟨200, headers, text⟩
          = processJsonContentSuccess 200 (headersGet headers "content-type") text
              decodelistPets_200 := rfl
      rw [harm, hh]
      simp [processJsonContentSuccess, ctIncludesJson_textHtml, unexpectedContentType]
    · have harm : dispatcherOf Op.listPets ⟨500, headers, text⟩
          = processJsonContentError 500 (headersGet headers "content-type") text
              decodelistPets_500 := rfl
      rw [harm, hh]
      simp [processJsonContentError, ctIncludesJson_textHtml, unexpectedContentType]
  case createPet =>
    rcases hs with rfl | rfl | rfl
    · have harm : dispatcherOf Op.createPet ⟨201, headers, text⟩
          = processJsonContentSuccess 201 (headersGet headers "content-type") text
              decodecreatePet_201 := rfl
      rw [harm, hh]
      simp [processJsonContentSuccess, ctIncludesJson_textHtml, unexpectedContentType]
    · have harm : dispatcherOf Op.createPet ⟨400, headers, text⟩
          = processJsonContentError 400 (headersGet headers "content-type") text
              decodecreatePet_400 := rfl
      rw [harm, hh]
      simp [processJsonContentError, ctIncludesJson_textHtml, unexpectedContentType]
    · have harm : dispatcherOf Op.createPet ⟨500, headers, text⟩
          = processJsonContentError 500 (headersGet headers "content-type") text
              decodecreatePet_500 := rfl
      rw [harm, hh]
      simp [processJsonContentError, ctIncludesJson_textHtml, unexpectedContentType]
  case getPet =>
    rcases hs with rfl | rfl | rfl
    · have harm : dispatcherOf Op.getPet ⟨200, headers, text⟩
          = processJsonContentSuccess 200 (headersGet headers "content-type") text
              decodegetPet_200 := rfl
      rw [harm, hh]
      simp [processJsonContentSuccess, ctIncludesJson_textHtml, unexpectedContentType]
    · have harm : dispatcherOf Op.getPet ⟨404, headers, text⟩
          = processJsonContentError 404 (headersGet headers "content-type") text
              decodegetPet_404 := rfl
      rw [harm, hh]
      simp [processJsonContentError, ctIncludesJson_textHtml, unexpectedContentType]
    · have harm : dispatcherOf Op.getPet ⟨500, headers, text⟩
          = processJsonContentError 500 (headersGet headers "content-type") text
              decodegetPet_500 := rfl
      rw [harm, hh]
      simp [processJsonContentError, ctIncludesJson_textHtml, unexpectedContentType]
  case deletePet =>
    rcases hs with rfl | rfl | rfl
    · exact absurd hct (by decide)
    · have harm : dispatcherOf Op.deletePet ⟨404, headers, text⟩
          = processJsonContentError 404 (headersGet headers "content-type") text
              decodedeletePet_404 := rfl
      rw [harm, hh]
      simp [processJsonContentError, ctIncludesJson_textHtml, unexpectedContentType]
    · have harm : dispatcherOf Op.deletePet ⟨500, headers, text⟩
          = processJsonContentError 500 (headersGet headers "content-type") text
              decodedeletePet_500 := rfl
      rw [harm, hh]
      simp [processJsonContentError, ctIncludesJson_textHtml, unexpectedContentType]

/-- Witness for C5: getPet with declared status 404 and a text/html header
yields UnexpectedContentType carrying the body. -/
theorem claim5_witness :
    dispatcherOf Op.getPet ⟨404, [("content-type", "text/html")], "<html>"⟩ =
      .error (.unexpectedContentType 404 ["application/json"] (some "text/html") "<html>") :=
  claim5_content_type_mismatch Op.getPet 404 (by decide) rfl
    [("content-type", "text/html")] "<html>" rfl

/-- C7: for every declared-JSON status, a matching content-type header and
a body text on which JSON parsing fails dispatch to a ParseError carrying
the status, the content type, the underlying error and the raw body. -/
theorem claim7_parse_error (op : Op) (s : Nat)
    (hs : s ∈ declaredStatuses op)
    (hct : declaredContentTypes op s = ["application/json"])
    (headers : List (String × String)) (text : String)
    (hh : headersGet headers "content-type" = some "application/json")
    (hp : parseJSONText text = none) :
    dispatcherOf op ⟨s, headers, text⟩ =
      .error (.parseError s "application/json" "SyntaxError" text) := by
  cases op <;>
    simp only [declaredStatuses, List.mem_cons, List.mem_singleton, List.not_mem_nil,
      or_false] at hs
  case listPets =>
    rcases hs with rfl | rfl
    · have harm : dispatcherOf Op.listPets ⟨200, headers, text⟩
          = processJsonContentSuccess 200 (headersGet headers "content-type") text
              decodelistPets_200 := rfl
      rw [harm, hh]
      simp [processJsonContentSuccess, parseJSON, ctIncludesJson_appJson, hp]
    · have harm : dispatcherOf Op.listPets ⟨500, headers, text⟩
          = processJsonContentError 500 (headersGet headers "content-type") text
              decodelistPets_500 := rfl
      rw [harm, hh]
      simp [processJsonContentError, parseJSON, ctIncludesJson_appJson, hp]
  case createPet =>
    rcases hs with rfl | rfl | rfl
    · have harm : dispatcherOf Op.createPet ⟨201, headers, text⟩
          = processJsonContentSuccess 201 (headersGet headers "content-type") text
              decodecreatePet_201 := rfl
      rw [harm, hh]
      simp [processJsonContentSuccess, parseJSON, ctIncludesJson_appJson, hp]
    · have harm : dispatcherOf Op.createPet ⟨400, headers, text⟩
          = processJsonContentError 400 (headersGet headers "content-type") text
              decodecreatePet_400 := rfl
      rw [harm, hh]
      simp [processJsonContentError, parseJSON, ctIncludesJson_appJson, hp]
    · have harm : dispatcherOf Op.createPet ⟨500, headers, text⟩
          = processJsonContentError 500 (headersGet headers "content-type") text
              decodecreatePet_500 := rfl
      rw [harm, hh]
      simp [processJsonContentError, parseJSON, ctIncludesJson_appJson, hp]
  case getPet =>
    rcases hs with rfl | rfl | rfl
    · have harm : dispatcherOf Op.getPet ⟨200, headers, text⟩
          = processJsonContentSuccess 200 (headersGet headers "content-type") text
              decodegetPet_200 := rfl
      rw [harm, hh]
      simp [processJsonContentSuccess, parseJSON, ctIncludesJson_appJson, hp]
    · have harm : dispatcherOf Op.getPet ⟨404, headers, text⟩
          = processJsonContentError 404 (headersGet headers "content-type") text
              decodegetPet_404 := rfl
      rw [harm, hh]
      simp [processJsonContentError, parseJSON, ctIncludesJson_appJson, hp]
    · have harm : dispatcherOf Op.getPet ⟨500, headers, text⟩
          = processJsonContentError 500 (headersGet headers "content-type") text
              decodegetPet_500 := rfl
      rw [harm, hh]
      simp [processJsonContentError, parseJSON, ctIncludesJson_appJson, hp]
  case deletePet =>
    rcases hs with rfl | rfl | rfl
    · exact absurd hct (by decide)
    · have harm : dispatcherOf Op.deletePet ⟨404, headers, text⟩
          = processJsonContentError 404 (headersGet headers "content-type") text
              decodedeletePet_404 := rfl
      rw [harm, hh]
      simp [processJsonContentError, parseJSON, ctIncludesJson_appJson, hp]
    · have harm : dispatcherOf Op.deletePet ⟨500, headers, text⟩
          = processJsonContentError 500 (headersGet headers "content-type") text
              decodedeletePet_500 := rfl
      rw [harm, hh]
      simp [processJsonContentError, parseJSON, ctIncludesJson_appJson, hp]

/-- Witness for C7: the body "\x7bnot valid" with a matching JSON header
at declared status 200 yields ParseError with the raw text attached. -/
theorem claim7_witness :
    dispatcherOf Op.getPet ⟨200, [("content-type", "application/json")], "\x7bnot valid"⟩ =
      .error (.parseError 200 "application/json" "SyntaxError" "\x7bnot valid") :=
  claim7_parse_error Op.getPet 200 (by decide) rfl
    [("content-type", "application/json")] "\x7bnot valid" rfl rfl

lemma processJsonContentSuccess_uct_iff (status : Nat) (ct : Option String) (text : String)
    (check : Json → Bool) :
    (processJsonContentSuccess status ct text (mkJsonDecoder check)
        = .error (.unexpectedContentType status ["application/json"] ct text))
      ↔ ctIncludesJson ct = false := by
  constructor
  · intro h
    by_contra hb
    rw [Bool.not_eq_false] at hb
    simp only [processJsonContentSuccess, parseJSON, hb, if_true] at h
    cases hp : parseJSONText text with
    | none => rw [hp] at h; exact absurd h (by simp)
    | some parsed =>
      rw [hp] at h
      cases hc : check parsed with
      | false => simp [mkJsonDecoder, hc] at h
      | true => simp [mkJsonDecoder, hc] at h
  · intro h
    simp [processJsonContentSuccess, h, unexpectedContentType]

lemma processJsonContentError_uct_iff (status : Nat) (ct : Option String) (text : String)
    (check : Json → Bool) :
    (processJsonContentError status ct text (mkJsonDecoder check)
        = .error (.unexpectedContentType status ["application/json"] ct text))
      ↔ ctIncludesJson ct = false := by
  constructor
  · intro h
    by_contra hb
    rw [Bool.not_eq_false] at hb
    simp only [processJsonContentError, parseJSON, hb, if_true] at h
    cases hp : parseJSONText text with
    | none => rw [hp] at h; exact absurd h (by simp)
    | some parsed =>
      rw [hp] at h
      cases hc : check parsed with
      | false => simp [mkJsonDecoder, hc] at h
      | true => simp [mkJsonDecoder, hc] at h
  · intro h
    simp [processJsonContentError, h, unexpectedContentType]

/-- C6 (amended): for every declared-JSON status, the dispatcher hands the
classifier the whole content-type header value (undefined when absent) and
rejects with UnexpectedContentType exactly when that value does not contain
"application/json" as a substring — no truncation at the first ';'. -/
theorem claim6_amended (op : Op) (s : Nat)
    (hs : s ∈ declaredStatuses op)
    (hct : declaredContentTypes op s = ["application/json"])
    (headers : List (String × String)) (text : String) :
    (dispatcherOf op ⟨s, headers, text⟩
        = .error (.unexpectedContentType s ["application/json"]
            (headersGet headers "content-type") text))
      ↔ ctIncludesJson (headersGet headers "content-type") = false := by
  cases op <;>
    simp only [declaredStatuses, List.mem_cons, List.mem_singleton, List.not_mem_nil,
      or_false] at hs
  case listPets =>
    rcases hs with rfl | rfl
    · exact processJsonContentSuccess_uct_iff 200 (headersGet headers "content-type") text
        isPetList
    · exact processJsonContentError_uct_iff 500 (headersGet headers "content-type") text
        isErrorBody
  case createPet =>
    rcases hs with rfl | rfl | rfl
    · exact processJsonContentSuccess_uct_iff 201 (headersGet headers "content-type") text isPet
    · exact processJsonContentError_uct_iff 400 (headersGet headers "content-type") text
        isErrorBody
    · exact processJsonContentError_uct_iff 500 (headersGet headers "content-type") text
        isErrorBody
  case getPet =>
    rcases hs with rfl | rfl | rfl
    · exact processJsonContentSuccess_uct_iff 200 (headersGet headers "content-type") text isPet
    · exact processJsonContentError_uct_iff 404 (headersGet headers "content-type") text
        isErrorBody
    · exact processJsonContentError_uct_iff 500 (headersGet headers "content-type") text
        isErrorBody
  case deletePet =>
    rcases hs with rfl | rfl | rfl
    · exact absurd hct (by decide)
    · exact processJsonContentError_uct_iff 404 (headersGet headers "content-type") text
        isErrorBody
    · exact processJsonContentError_uct_iff 500 (headersGet headers "content-type") text
        isErrorBody

/-- C6 (counterexample): a header whose part before the first ';' is
"text/plain" — not "application/json" — is nevertheless accepted as JSON,
because the code tests substring inclusion on the whole header value. -/
theorem claim6_counterexample :
    dispatcherlistPets ⟨200, [("content-type", "text/plain; application/json")], "[]"⟩
        = .ok ⟨200, "application/json", some (.arr [])⟩
    ∧ headerMainPart "text/plain; application/json" ≠ "application/json" :=
  ⟨rfl, by decide⟩

/-- Witness for C6 (amended): at a concrete declared status and header the
acceptance test is exactly the substring inclusion check. -/
theorem claim6_witness :
    (dispatcherOf Op.getPet ⟨200, [("content-type", "text/html")], "x"⟩
        = .error (.unexpectedContentType 200 ["application/json"]
            (headersGet [("content-type", "text/html")] "content-type") "x"))
      ↔ ctIncludesJson (headersGet [("content-type", "text/html")] "content-type") = false :=
  claim6_amended Op.getPet 200 (by decide) rfl [("content-type", "text/html")] "x"

/-- C4 (counterexample): Is2xx is the decimal-representation-starts-with-2
test, so status 2000 classifies as success although it is not in
[200, 299]; the claimed equivalence fails for it. -/
theorem claim4_counterexample :
    Is2xx 2000 = true ∧ ¬(200 ≤ 2000 ∧ 2000 ≤ 299) := by decide

set_option maxRecDepth 100000 in
set_option maxHeartbeats 1000000 in
/-- C4 (amended): Is2xx tests that the decimal representation starts with
the digit 2; on three-digit statuses this coincides with the 200-299 range
test, and in particular 250 and 299 classify as success while 199 and 300
do not. -/
theorem claim4_amended :
    (∀ s : Nat, s < 1000 → 100 ≤ s → (Is2xx s = true ↔ isSuccessStatusSpec s = true))
    ∧ Is2xx 250 = true ∧ Is2xx 299 = true ∧ Is2xx 199 = false ∧ Is2xx 300 = false := by
  decide

/-- Witness for C4 (amended): at the concrete three-digit status 250 the
structural test agrees with the range test. -/
theorem claim4_witness :
    Is2xx 250 = true ↔ isSuccessStatusSpec 250 = true :=
  claim4_amended.1 250 (by decide) (by decide)

/-- C10: in the createClientEffect pipeline every HttpError-tagged dispatch
outcome is caught and returned on the success channel, so any error that
remains on the error channel is a boundary error; the strict executor, by
contrast, leaves an HttpError-tagged outcome on the error channel. -/
theorem claim10_http_errors_as_values (transport : Except String RawResponse) :
    (∀ e, createClientEffectRequest transport = .error e →
      isHttpErrorValue e = false ∧ isBoundaryErrorValue e = true)
    ∧ (∀ raw s ct b, transport = .ok raw →
      universalDispatcher raw = .error (.httpError s ct b) →
      createClientEffectRequest transport = .ok (.inr (.httpError s ct b)))
    ∧ (∀ raw s ct b (d : RawResponse → Except Failure SuccessRecord),
      transport = .ok raw → d raw = .error (.httpError s ct b) →
      executeRequest transport d = .error (.httpError s ct b)) := by
  refine ⟨?_, ?_, ?_⟩
  · intro e he
    unfold createClientEffectRequest exposeHttpErrorsAsValues at he
    cases hr : executeRequest transport universalDispatcher with
    | ok a => rw [hr] at he; exact absurd he (by simp)
    | error e0 =>
      rw [hr] at he
      cases hhttp : isHttpErrorValue e0 with
      | true => simp [hhttp] at he
      | false =>
        simp only [hhttp, Bool.false_eq_true, if_false, Except.error.injEq] at he
        subst he
        refine ⟨hhttp, ?_⟩
        cases e0 <;> simp_all [isHttpErrorValue, isBoundaryErrorValue]
  · intro raw s ct b ht hd
    subst ht
    unfold createClientEffectRequest exposeHttpErrorsAsValues executeRequest executeRequestTrace
    simp [hd, isHttpErrorValue]
  · intro raw s ct b d ht hd
    subst ht
    exact hd

/-- Witness for C10: a schema-style 404 JSON response dispatched through
the createClientEffect pipeline lands on the success channel as an
HttpError value. -/
theorem claim10_witness :
    createClientEffectRequest (.ok ⟨404, [("content-type", "application/json")],
        "\x7b\"code\":404,\"message\":\"nope\"\x7d"⟩)
      = .ok (.inr (.httpError 404 "application/json"
          (some (.obj [("code", .num "404"), ("message", .str "nope")])))) :=
  (claim10_http_errors_as_values (.ok ⟨404, [("content-type", "application/json")],
      "\x7b\"code\":404,\"message\":\"nope\"\x7d"⟩)).2.1
    ⟨404, [("content-type", "application/json")], "\x7b\"code\":404,\"message\":\"nope\"\x7d"⟩
    404 "application/json" (some (.obj [("code", .num "404"), ("message", .str "nope")]))
    rfl rfl

/-- Witness for C3: status 204 with a text/html header and non-empty
garbage body still yields the bodiless success record. -/
theorem claim3_witness :
    dispatcherdeletePet ⟨204, [("content-type", "text/html")], "garbage"⟩ =
      .ok ⟨204, "none", none⟩ :=
  claim3_deletePet_204 [("content-type", "text/html")] "garbage"

/-- Witness for C9: at a concrete dispatcher-map type, the unregistered
resolution is the thrown configuration error. -/
theorem claim9_witness :
    createClientDispatchers (none : Option Nat) none =
      .error "Default dispatchers are not registered. Import generated dispatchers module." :=
  claim9_no_registry_throws Nat

end OpenapiEffect
